import Mathlib

/-!
Shallow embedding of the co2js-injector GitHub action (src/index.ts) and
proofs of the specification claims about it.

The embedding models the four components of the action:
* `calculateBytes` — the Byte Accountant (filesystem walk over a modelled
  filesystem tree, with the glob ignore patterns for `.git` / `node_modules`);
* `fetchCloudflareAnalytics` — the Traffic Analytics Fetcher (the HTTP world is
  an abstract `FetchOutcome`; the JSON body is the optional-field shape that the
  source reads with optional chaining);
* `buildCarbonTxt` — the Report Composer (pure string construction; the
  CO2.js `perByte` number rendering and the wall-clock ISO timestamp are
  opaque string parameters, modelling the out-of-scope collaborators);
* `run` — the Orchestrator (the single try/catch that converts a thrown
  error into one failure message and skips the report write).
-/

namespace CO2Injector

/-! ## Filesystem model (Byte Accountant) -/

/-- A filesystem entry: a regular file with a byte size, a directory with
named children, or any other kind of node (FIFO, socket, device, …). -/
inductive FSEntry where
  | file (size : Nat)
  | dir (entries : List (String × FSEntry))
  | other
deriving Repr

/-- Directory names that the glob call ignores, from the ignore patterns
`**/.git/**` and `**/node_modules/**` in `calculateBytes`. -/
def ignoredDir (name : String) : Bool :=
  name == ".git" || name == "node_modules"

/-- Model of the `glob("**/*", \x7bignore: ["**/.git/**", "**/node_modules/**"],
nodir: true\x7d)` call in `calculateBytes`: every regular file below the given
directory listing, as (relative path segments, size), never descending into a
directory named `.git` or `node_modules`. -/
def globFiles : List (String × FSEntry) → List (List String × Nat)
  | [] => []
  | (name, .file n) :: rest => ([name], n) :: globFiles rest
  | (name, .dir es) :: rest =>
      (if ignoredDir name then []
       else (globFiles es).map (fun pr => (name :: pr.1, pr.2))) ++ globFiles rest
  | (_, .other) :: rest => globFiles rest

/-- Modelled from the spec: every regular file below a directory listing,
at any depth, with its relative path segments and size, with no exclusion.
This is the spec-side reference enumeration against which the glob model is
compared. -/
def regularFilesUnder : List (String × FSEntry) → List (List String × Nat)
  | [] => []
  | (name, .file n) :: rest => ([name], n) :: regularFilesUnder rest
  | (name, .dir es) :: rest =>
      (regularFilesUnder es).map (fun pr => (name :: pr.1, pr.2))
        ++ regularFilesUnder rest
  | (_, .other) :: rest => regularFilesUnder rest

/-- Modelled from the spec: a relative file path contains a `.git` or
`node_modules` directory segment.  The last segment is the file name itself,
so only the segments before it are directory segments. -/
def hasIgnoredDirSegment (path : List String) : Bool :=
  path.dropLast.any ignoredDir

/-- Model of `calculateBytes`: the filesystem is an abstract map from path
strings to entries; a missing entry is a nonexistent path.  Mirrors the source:
nonexistent → throw `Path not found: …`; regular file → its size; directory →
sum of the sizes of the glob-enumerated files; anything else → the initial
`totalBytes = 0`. -/
def calculateBytes (targetPath : String) (fsys : String → Option FSEntry) :
    Except String Nat :=
  match fsys targetPath with
  | none => .error ("Path not found: " ++ targetPath)
  | some (.file n) => .ok n
  | some (.dir es) => .ok (((globFiles es).map Prod.snd).sum)
  | some .other => .ok 0

/-! ## Cloudflare analytics model (Traffic Analytics Fetcher) -/

/-- JavaScript truthiness of an optional string: `undefined`, `null` and the
empty string are falsy. -/
def strTruthy : Option String → Bool
  | none => false
  | some s => !(s == "")

/-- Model of the JavaScript `a || b` idiom on an optional string (the empty
string falls through to the default). -/
def strOrElse (o : Option String) (d : String) : String :=
  match o with
  | none => d
  | some s => if s == "" then d else s

/-- The `config` argument of `fetchCloudflareAnalytics`. -/
structure CloudflareConfig where
  apiToken : Option String
  zoneId : Option String
  since : Option String
  «until» : Option String
  enabled : Bool
deriving Repr

/-- The `dimensions` object of one GraphQL group (`date` may be absent). -/
structure Dimensions where
  date : Option String
deriving Repr

/-- The `sum` object of one GraphQL group (`requests` / `bytes` may be
absent). -/
structure SumFields where
  requests : Option Nat
  bytes : Option Nat
deriving Repr

/-- One element of `httpRequests1dGroups`; both sub-objects may be absent. -/
structure ApiGroup where
  dimensions : Option Dimensions
  sum : Option SumFields
deriving Repr

/-- One zone object; its groups array may be absent or null. -/
structure Zone where
  httpRequests1dGroups : Option (List (Option ApiGroup))
deriving Repr

/-- The `viewer` object; the zones array may be absent or null and may hold
null elements. -/
structure Viewer where
  zones : Option (List (Option Zone))
deriving Repr

/-- The `data` object of the GraphQL response body. -/
structure BodyData where
  viewer : Option Viewer
deriving Repr

/-- A parsed GraphQL response body: an optional `errors` array (elements kept
as their serialized forms) and an optional `data` object. -/
structure ApiBody where
  errors : Option (List String)
  data : Option BodyData
deriving Repr

/-- What the external HTTP transport did: either `fetch()` / `response.json()`
threw (network failure or malformed body, with the thrown error's message), or
a response arrived with an `ok` flag, a status code and text, and a parsed
body. -/
inductive FetchOutcome where
  | throws (msg : String)
  | resp (ok : Bool) (status : Nat) (statusText : String) (body : ApiBody)
deriving Repr

/-- A fetch outcome that is not a clean success: a transport exception, a
non-success HTTP status, or a response carrying a non-empty API error list. -/
def FetchOutcome.failing : FetchOutcome → Bool
  | .throws _ => true
  | .resp ok _ _ body => !ok || !(body.errors.getD []).isEmpty

/-- Model of `data?.data?.viewer?.zones?.[0]?.httpRequests1dGroups ?? []`:
the first zone's daily-groups array, where absence or null at any nesting
level falls back to the empty array. -/
def extractGroups (b : ApiBody) : List (Option ApiGroup) :=
  (((((b.data.bind BodyData.viewer).bind Viewer.zones).bind
      List.head?).bind id).bind Zone.httpRequests1dGroups).getD []

/-- Model of `group?.dimensions?.date` for one (possibly null) group. -/
def groupDate (g : Option ApiGroup) : Option String :=
  (g.bind ApiGroup.dimensions).bind Dimensions.date

/-- Model of `(group?.sum?.requests) ?? 0` for one (possibly null) group. -/
def groupRequests (g : Option ApiGroup) : Nat :=
  ((g.bind ApiGroup.sum).bind SumFields.requests).getD 0

/-- Model of `(group?.sum?.bytes) ?? 0` for one (possibly null) group. -/
def groupBytes (g : Option ApiGroup) : Nat :=
  ((g.bind ApiGroup.sum).bind SumFields.bytes).getD 0

/-- One row of the normalized per-day breakdown. -/
structure DailyEntry where
  date : String
  requests : Nat
  bytes : Nat
deriving Repr

/-- Modelled from the spec side of the normalization: the daily row produced
by one group — present exactly when the group's `date` is (truthily) present,
carrying the defaulted numeric fields. -/
def dailyOfGroup (g : Option ApiGroup) : Option DailyEntry :=
  if strTruthy (groupDate g) then
    some ⟨(groupDate g).getD "", groupRequests g, groupBytes g⟩
  else none

/-- The `time_range` component of a normalized analytics result. -/
structure TimeRange where
  since : String
  «until» : String
deriving Repr

/-- The `totals` component of a normalized analytics result. -/
structure Totals where
  requests : Nat
  bytes : Nat
deriving Repr

/-- The normalized analytics result (`CloudflareAnalyticsResult` in the
source). -/
structure CloudflareAnalyticsResult where
  zone_id : String
  time_range : TimeRange
  totals : Totals
  daily : List DailyEntry
deriving Repr

/-- Model of the `for (const group of groups)` loop in
`fetchCloudflareAnalytics`: accumulate total requests, total bytes, and the
daily rows (pushed in iteration order for groups with a truthy `date`). -/
def processGroups (groups : List (Option ApiGroup)) :
    Nat × Nat × List DailyEntry :=
  groups.foldl
    (fun acc g =>
      let requests := groupRequests g
      let bytes := groupBytes g
      if strTruthy (groupDate g) then
        (acc.1 + requests, acc.2.1 + bytes,
         acc.2.2 ++ [⟨(groupDate g).getD "", requests, bytes⟩])
      else
        (acc.1 + requests, acc.2.1 + bytes, acc.2.2))
    (0, 0, [])

/-- The warning emitted when analytics are enabled but a credential is
missing. -/
def credWarning : String :=
  "Cloudflare analytics enabled but api token or zone id not provided; skipping Cloudflare integration."

/-- Model of `JSON.stringify(data.errors)` over the kept serialized error
elements. -/
def serializeErrors (es : List String) : String :=
  "[" ++ (String.intercalate "," es ++ "]")

/-- What `fetchCloudflareAnalytics` produces: the returned value (null or a
normalized result) together with the `core.warning` lines it emitted. -/
structure FetchResult where
  result : Option CloudflareAnalyticsResult
  warnings : List String
deriving Repr

/-- Model of `fetchCloudflareAnalytics`.  `defaultSince` / `defaultUntil`
stand for the wall-clock-derived trailing 30-day window; `outcome` is what the
external transport did.  Mirrors the source exactly: disabled → null with no
warning; falsy token or zone id → warning and null; then transport exception /
non-ok status / non-empty error list → warning and null; otherwise normalize
the groups. -/
def fetchCloudflareAnalytics (config : CloudflareConfig)
    (defaultSince defaultUntil : String) (outcome : FetchOutcome) :
    FetchResult :=
  if !config.enabled then ⟨none, []⟩
  else if !strTruthy config.apiToken || !strTruthy config.zoneId then
    ⟨none, [credWarning]⟩
  else
    let since := (strOrElse config.since defaultSince).take 10
    let «until» := (strOrElse config.until defaultUntil).take 10
    match outcome with
    | .throws msg =>
        ⟨none, ["Failed to fetch Cloudflare analytics: " ++ msg]⟩
    | .resp ok status statusText body =>
        if !ok then
          ⟨none, ["Cloudflare API request failed: " ++
                  (Nat.repr status ++ (" " ++ statusText))]⟩
        else if !(body.errors.getD []).isEmpty then
          ⟨none, ["Cloudflare API returned errors: " ++
                  serializeErrors (body.errors.getD [])]⟩
        else
          let groups := extractGroups body
          let totals := processGroups groups
          ⟨some { zone_id := config.zoneId.getD ""
                  time_range := { since := since, «until» := «until» }
                  totals := { requests := totals.1, bytes := totals.2.1 }
                  daily := totals.2.2 },
           []⟩

/-! ## Report composer model (`buildCarbonTxt`) -/

/-- Model of JavaScript `Array.prototype.join("\n")` on the `lines` array. -/
def joinLines : List String → String
  | [] => ""
  | [l] => l
  | l :: ls => l ++ ("\n" ++ joinLines ls)

/-- Rendering of a JavaScript boolean inside a template literal. -/
def boolStr (b : Bool) : String :=
  if b then "true" else "false"

/-- The arguments of `buildCarbonTxt`.  `estimatedCO2` and `perByte` carry the
rendered output of the external CO2.js model (an opaque collaborator), and
`nowIso` the single `new Date().toISOString()` captured at the top of the
function. -/
structure BuildParams where
  bytes : Nat
  greenHosting : Bool
  estimatedCO2 : String
  cloudflareAnalytics : Option CloudflareAnalyticsResult
  perByte : Nat → Bool → String
  nowIso : String

/-- The fixed head of the report: the comment, version, `last_updated`, and
the `[build]` section, exactly the lines pushed unconditionally by
`buildCarbonTxt`. -/
def reportHeader (p : BuildParams) : List String :=
  ["# Generated by CO2.js GitHub Action",
   "version = \"0.3\"",
   "last_updated = \"" ++ (p.nowIso ++ "\""),
   "",
   "[build]",
   "date = \"" ++ (p.nowIso ++ "\""),
   "total_bytes = " ++ Nat.repr p.bytes,
   "green_hosting = " ++ boolStr p.greenHosting,
   "estimated_co2_grams = " ++ p.estimatedCO2]

/-- The `[cloudflare]` section head pushed when analytics are present. -/
def cloudflareHeader (p : BuildParams) (a : CloudflareAnalyticsResult) :
    List String :=
  ["",
   "[cloudflare]",
   "zone_id = \"" ++ (a.zone_id ++ "\""),
   "since = \"" ++ (a.time_range.since ++ "\""),
   "until = \"" ++ (a.time_range.until ++ "\""),
   "requests = " ++ Nat.repr a.totals.requests,
   "bytes = " ++ Nat.repr a.totals.bytes,
   "estimated_co2_grams = " ++ p.perByte a.totals.bytes p.greenHosting]

/-- The `[[cloudflare.daily]]` block pushed for one daily entry. -/
def dailyBlock (p : BuildParams) (day : DailyEntry) : List String :=
  ["",
   "[[cloudflare.daily]]",
   "date = \"" ++ (day.date ++ "\""),
   "requests = " ++ Nat.repr day.requests,
   "bytes = " ++ Nat.repr day.bytes,
   "estimated_co2_grams = " ++ p.perByte day.bytes p.greenHosting]

/-- The `lines` array built by `buildCarbonTxt`, before the final join. -/
def buildCarbonTxtLines (p : BuildParams) : List String :=
  match p.cloudflareAnalytics with
  | none => reportHeader p
  | some a =>
      reportHeader p ++ (cloudflareHeader p a
        ++ a.daily.flatMap (dailyBlock p))

/-- Model of `buildCarbonTxt`: the composed report text. -/
def buildCarbonTxt (p : BuildParams) : String :=
  joinLines (buildCarbonTxtLines p)

/-- Number of lines equal to the `[[cloudflare.daily]]` block marker. -/
def markerCount (lines : List String) : Nat :=
  (lines.filter (fun l => l == "[[cloudflare.daily]]")).length

/-- Occurrence of a pattern as a contiguous substring of a character list. -/
def containsSub (pat : List Char) : List Char → Bool
  | [] => pat.isEmpty
  | c :: rest => pat.isPrefixOf (c :: rest) || containsSub pat rest

/-- Occurrence of a pattern string as a contiguous substring of a string. -/
def occursIn (pat s : String) : Bool :=
  containsSub pat.data s.data

/-! ## Orchestrator model (`run`) -/

/-- The raw action inputs: `core.getInput` returns the empty string for an
unset input, so every field is a plain string. -/
structure ActionInputs where
  path : String
  greenHosting : String
  destination : String
  cloudflareEnabled : String
  cloudflareApiToken : String
  cloudflareZoneId : String
  cloudflareSince : String
  cloudflareUntil : String
deriving Repr

/-- Model of `s || d` on a raw input string. -/
def inputOr (s d : String) : String :=
  if s == "" then d else s

/-- The Cloudflare config that `run` assembles from the raw inputs. -/
def runConfig (inputs : ActionInputs) : CloudflareConfig :=
  { apiToken := some inputs.cloudflareApiToken
    zoneId := some inputs.cloudflareZoneId
    since := some inputs.cloudflareSince
    «until» := some inputs.cloudflareUntil
    enabled := inputs.cloudflareEnabled == "true" }

/-- The observable effects of one `run()`: the `core.setFailed` message if
any, the content written to `report.txt` if any, the `core.warning` lines, and
the `emissions` output value if set. -/
structure RunResult where
  failure : Option String
  report : Option String
  warnings : List String
  output : Option String
deriving Repr

/-- Model of `run()`.  The external worlds are parameters: `fsys` the
filesystem, `perByte` the rendered CO2.js model, `nowIso` the composer's
wall clock, `defaultSince` / `defaultUntil` the fetcher's wall-clock window,
and `outcome` the HTTP transport.  The only model-visible throw inside the
`try` block is the Byte Accountant's path-not-found error; the catch converts
it into a single `setFailed` and skips every later step, so no report is
written. -/
def run (inputs : ActionInputs) (fsys : String → Option FSEntry)
    (perByte : Nat → Bool → String)
    (nowIso defaultSince defaultUntil : String) (outcome : FetchOutcome) :
    RunResult :=
  let inputPath := inputOr inputs.path "."
  let greenHosting := inputs.greenHosting == "true"
  match calculateBytes inputPath fsys with
  | .error msg =>
      { failure := some msg, report := none, warnings := [], output := none }
  | .ok bytes =>
      let estimatedCO2 := perByte bytes greenHosting
      let fr := fetchCloudflareAnalytics (runConfig inputs)
        defaultSince defaultUntil outcome
      let txt := buildCarbonTxt
        { bytes := bytes, greenHosting := greenHosting,
          estimatedCO2 := estimatedCO2, cloudflareAnalytics := fr.result,
          perByte := perByte, nowIso := nowIso }
      { failure := none, report := some txt, warnings := fr.warnings,
        output := some estimatedCO2 }

/-! ## Helper lemmas: normalization loop -/

/-- The accumulator-passing form of the normalization loop. -/
theorem processGroups_foldl (gs : List (Option ApiGroup))
    (tr tb : Nat) (d : List DailyEntry) :
    gs.foldl
      (fun acc g =>
        let requests := groupRequests g
        let bytes := groupBytes g
        if strTruthy (groupDate g) then
          (acc.1 + requests, acc.2.1 + bytes,
           acc.2.2 ++ [⟨(groupDate g).getD "", requests, bytes⟩])
        else
          (acc.1 + requests, acc.2.1 + bytes, acc.2.2))
      (tr, tb, d)
    = (tr + (gs.map groupRequests).sum, tb + (gs.map groupBytes).sum,
       d ++ gs.filterMap dailyOfGroup) := by
  induction gs generalizing tr tb d with
  | nil => simp
  | cons g gs ih =>
      simp only [List.foldl_cons, List.map_cons, List.sum_cons,
        List.filterMap_cons, dailyOfGroup]
      by_cases h : strTruthy (groupDate g)
      · rw [if_pos h, if_pos h, ih]
        simp [Nat.add_assoc]
      · rw [if_neg h, if_neg h, ih]
        simp [Nat.add_assoc]

/-- The normalization loop computes the sums of the defaulted numeric fields
over all groups, and keeps as daily rows exactly the groups with a truthy
date, in order. -/
theorem processGroups_spec (gs : List (Option ApiGroup)) :
    processGroups gs
    = ((gs.map groupRequests).sum, (gs.map groupBytes).sum,
       gs.filterMap dailyOfGroup) := by
  have h := processGroups_foldl gs 0 0 []
  simpa [processGroups] using h

/-! ## Helper lemmas: glob model versus the spec-side enumeration -/

/-- Every path produced by the spec-side enumeration is nonempty (it ends in
the file's own name). -/
theorem regularFilesUnder_path_ne_nil :
    ∀ (l : List (String × FSEntry)), ∀ pr ∈ regularFilesUnder l, pr.1 ≠ [] := by
  intro l
  induction l using regularFilesUnder.induct with
  | case1 => simp [regularFilesUnder]
  | case2 name n rest ih =>
      intro pr hpr
      simp only [regularFilesUnder, List.mem_cons] at hpr
      rcases hpr with h | h
      · simp [h]
      · exact ih pr h
  | case3 name es rest ih1 ih2 =>
      intro pr hpr
      simp only [regularFilesUnder, List.mem_append, List.mem_map] at hpr
      rcases hpr with ⟨q, _, hq⟩ | h
      · intro hnil
        rw [← hq] at hnil
        simp at hnil
      · exact ih2 pr h
  | case4 name rest ih =>
      intro pr hpr
      simp only [regularFilesUnder] at hpr
      exact ih pr hpr

/-- The glob model equals the spec-side enumeration filtered by the absence
of a `.git` / `node_modules` directory segment in the relative path. -/
theorem globFiles_eq_filter (l : List (String × FSEntry)) :
    globFiles l
    = (regularFilesUnder l).filter (fun pr => !hasIgnoredDirSegment pr.1) := by
  induction l using globFiles.induct with
  | case1 => simp [globFiles, regularFilesUnder]
  | case2 name n rest ih =>
      simp only [globFiles, regularFilesUnder, List.filter_cons]
      simp [hasIgnoredDirSegment, ih]
  | case3 name es rest ih1 ih2 =>
      simp only [globFiles, regularFilesUnder, List.filter_append]
      rw [ih2, List.filter_map]
      congr 1
      by_cases hig : ignoredDir name
      · rw [if_pos hig]
        have hnil : List.filter
            ((fun pr : List String × Nat => !hasIgnoredDirSegment pr.1) ∘
              (fun pr : List String × Nat => (name :: pr.1, pr.2)))
            (regularFilesUnder es) = [] := by
          rw [List.filter_eq_nil_iff]
          intro pr hpr
          have hne := regularFilesUnder_path_ne_nil es pr hpr
          simp [hasIgnoredDirSegment, List.dropLast_cons_of_ne_nil hne, hig]
        rw [hnil, List.map_nil]
      · rw [if_neg hig, ih1]
        congr 1
        apply List.filter_congr
        intro pr hpr
        have hne := regularFilesUnder_path_ne_nil es pr hpr
        have hig2 : ignoredDir name = false := by
          simpa using hig
        simp [hasIgnoredDirSegment, List.dropLast_cons_of_ne_nil hne, hig2]
  | case4 name rest ih =>
      simp only [globFiles, regularFilesUnder]
      exact ih

/-! ## Helper lemmas: strings and the report lines -/

/-- A string whose first character differs from `[` is not the
`[[cloudflare.daily]]` marker line, whatever follows the prefix. -/
theorem prefixed_ne_marker (a b : String) (c : Char)
    (ha : a.data.head? = some c) (hc : c ≠ '[') :
    a ++ b ≠ "[[cloudflare.daily]]" := by
  intro h
  have hd := congrArg String.data h
  rw [String.data_append] at hd
  cases hae : a.data with
  | nil => rw [hae] at ha; simp at ha
  | cons x xs =>
      rw [hae] at ha hd
      simp only [List.head?_cons, Option.some.injEq] at ha
      have hx : x = '[' := by
        have h2 := congrArg List.head? hd
        simpa using h2
      exact hc (ha ▸ hx)

/-- Decimal digit characters are never an opening bracket. -/
theorem digitChar_ne_bracket (n : Nat) (h : n < 10) :
    Nat.digitChar n ≠ '[' := by
  interval_cases n <;> decide

/-- The decimal digit accumulator never introduces an opening bracket. -/
theorem toDigitsCore_ne_bracket :
    ∀ (fuel n : Nat) (ds : List Char), '[' ∉ ds →
      '[' ∉ Nat.toDigitsCore 10 fuel n ds := by
  intro fuel
  induction fuel with
  | zero => intro n ds h; simpa [Nat.toDigitsCore] using h
  | succ fuel ih =>
      intro n ds h
      rw [Nat.toDigitsCore]
      have hd : '[' ∉ Nat.digitChar (n % 10) :: ds := by
        intro hmem
        rcases List.mem_cons.mp hmem with he | he
        · exact digitChar_ne_bracket (n % 10) (Nat.mod_lt _ (by omega)) he.symm
        · exact h he
      split
      · exact hd
      · exact ih (n / 10) _ hd

/-- The decimal rendering of a natural number contains no opening bracket. -/
theorem repr_ne_bracket (n : Nat) : '[' ∉ (Nat.repr n).data := by
  show '[' ∉ (Nat.toDigits 10 n).asString.data
  have hda : (Nat.toDigits 10 n).asString.data = Nat.toDigits 10 n := rfl
  rw [hda, Nat.toDigits]
  exact toDigitsCore_ne_bracket _ _ _ (by simp)

/-- The rendering of a JavaScript boolean contains no opening bracket. -/
theorem boolStr_ne_bracket (b : Bool) : '[' ∉ (boolStr b).data := by
  cases b <;> decide

/-- Lines with the marker filtered out do not change the marker count. -/
theorem markerCount_cons (l : String) (ls : List String)
    (h : l ≠ "[[cloudflare.daily]]") :
    markerCount (l :: ls) = markerCount ls := by
  simp [markerCount, List.filter_cons, h]

/-- The marker line itself raises the marker count by one. -/
theorem markerCount_marker_cons (ls : List String) :
    markerCount ("[[cloudflare.daily]]" :: ls) = markerCount ls + 1 := by
  simp [markerCount, List.filter_cons]

/-- The marker count distributes over appending line lists. -/
theorem markerCount_append (xs ys : List String) :
    markerCount (xs ++ ys) = markerCount xs + markerCount ys := by
  simp [markerCount, List.filter_append]

/-- No line of the report head is the `[[cloudflare.daily]]` marker. -/
theorem markerCount_reportHeader (p : BuildParams) :
    markerCount (reportHeader p) = 0 := by
  rw [reportHeader]
  rw [markerCount_cons _ _ (by decide)]
  rw [markerCount_cons _ _ (by decide)]
  rw [markerCount_cons _ _ (prefixed_ne_marker "last_updated = \"" _ 'l' rfl (by decide))]
  rw [markerCount_cons _ _ (by decide)]
  rw [markerCount_cons _ _ (by decide)]
  rw [markerCount_cons _ _ (prefixed_ne_marker "date = \"" _ 'd' rfl (by decide))]
  rw [markerCount_cons _ _ (prefixed_ne_marker "total_bytes = " _ 't' rfl (by decide))]
  rw [markerCount_cons _ _ (prefixed_ne_marker "green_hosting = " _ 'g' rfl (by decide))]
  rw [markerCount_cons _ _ (prefixed_ne_marker "estimated_co2_grams = " _ 'e' rfl (by decide))]
  rfl

/-- No line of the `[cloudflare]` section head is the marker. -/
theorem markerCount_cloudflareHeader (p : BuildParams)
    (a : CloudflareAnalyticsResult) :
    markerCount (cloudflareHeader p a) = 0 := by
  rw [cloudflareHeader]
  rw [markerCount_cons _ _ (by decide)]
  rw [markerCount_cons _ _ (by decide)]
  rw [markerCount_cons _ _ (prefixed_ne_marker "zone_id = \"" _ 'z' rfl (by decide))]
  rw [markerCount_cons _ _ (prefixed_ne_marker "since = \"" _ 's' rfl (by decide))]
  rw [markerCount_cons _ _ (prefixed_ne_marker "until = \"" _ 'u' rfl (by decide))]
  rw [markerCount_cons _ _ (prefixed_ne_marker "requests = " _ 'r' rfl (by decide))]
  rw [markerCount_cons _ _ (prefixed_ne_marker "bytes = " _ 'b' rfl (by decide))]
  rw [markerCount_cons _ _ (prefixed_ne_marker "estimated_co2_grams = " _ 'e' rfl (by decide))]
  rfl

/-- Each daily block contributes exactly one marker line. -/
theorem markerCount_dailyBlock (p : BuildParams) (day : DailyEntry) :
    markerCount (dailyBlock p day) = 1 := by
  rw [dailyBlock]
  rw [markerCount_cons _ _ (by decide)]
  rw [markerCount_marker_cons]
  rw [markerCount_cons _ _ (prefixed_ne_marker "date = \"" _ 'd' rfl (by decide))]
  rw [markerCount_cons _ _ (prefixed_ne_marker "requests = " _ 'r' rfl (by decide))]
  rw [markerCount_cons _ _ (prefixed_ne_marker "bytes = " _ 'b' rfl (by decide))]
  rw [markerCount_cons _ _ (prefixed_ne_marker "estimated_co2_grams = " _ 'e' rfl (by decide))]
  rfl

/-- The concatenated daily blocks contribute one marker line per entry. -/
theorem markerCount_flatMap (p : BuildParams) (days : List DailyEntry) :
    markerCount (days.flatMap (dailyBlock p)) = days.length := by
  induction days with
  | nil => rfl
  | cons d ds ih =>
      rw [List.flatMap_cons, markerCount_append, markerCount_dailyBlock, ih,
        List.length_cons]
      omega

/-! ## Helper lemmas: absence of the `[cloudflare]` substring -/

/-- A character list without an opening bracket cannot contain the
`[cloudflare]` pattern. -/
theorem not_containsSub_of_not_mem (l : List Char) (h : '[' ∉ l) :
    containsSub "[cloudflare]".data l = false := by
  induction l with
  | nil => rfl
  | cons c cs ih =>
      simp only [List.mem_cons, not_or] at h
      rw [containsSub, ih h.2, Bool.or_false]
      show List.isPrefixOf ('[' :: "cloudflare]".data) (c :: cs) = false
      rw [List.isPrefixOf]
      have hc : (('[' : Char) == c) = false := by
        simp [h.1]
      rw [hc, Bool.false_and]

/-- Dropping a non-bracket head character does not affect the occurrence of
the `[cloudflare]` pattern. -/
theorem containsSub_cons_of_ne (x : Char) (b : List Char) (h : x ≠ '[') :
    containsSub "[cloudflare]".data (x :: b)
    = containsSub "[cloudflare]".data b := by
  rw [containsSub]
  show (List.isPrefixOf ('[' :: "cloudflare]".data) (x :: b) || _) = _
  rw [List.isPrefixOf]
  have hc : (('[' : Char) == x) = false := by
    simp
    exact fun he => h he.symm
  rw [hc, Bool.false_and, Bool.false_or]

/-- Dropping a bracket-free prefix does not affect the occurrence of the
`[cloudflare]` pattern. -/
theorem containsSub_append_right (a b : List Char) (h : '[' ∉ a) :
    containsSub "[cloudflare]".data (a ++ b)
    = containsSub "[cloudflare]".data b := by
  induction a with
  | nil => rfl
  | cons c cs ih =>
      simp only [List.mem_cons, not_or] at h
      rw [List.cons_append, containsSub_cons_of_ne _ _ (fun he => h.1 he.symm),
        ih h.2]

/-- An opening bracket followed by `b` starts no occurrence of the
`[cloudflare]` pattern (whose second character is `c`). -/
theorem containsSub_bracket_b (X : List Char) :
    containsSub "[cloudflare]".data ('[' :: ('b' :: X))
    = containsSub "[cloudflare]".data ('b' :: X) := by
  rw [containsSub]
  show (List.isPrefixOf ('[' :: ('c' :: "loudflare]".data)) ('[' :: ('b' :: X))
        || _) = _
  rw [List.isPrefixOf, List.isPrefixOf]
  have hc : (('c' : Char) == 'b') = false := by decide
  rw [hc, Bool.false_and, Bool.and_false, Bool.false_or]

/-- The joined report text contains no `[cloudflare]` substring as long as
every line is either the literal `[build]` line or bracket-free. -/
theorem joinLines_no_cloudflare (lines : List String)
    (h : ∀ l ∈ lines, l = "[build]" ∨ '[' ∉ l.data) :
    containsSub "[cloudflare]".data (joinLines lines).data = false := by
  induction lines with
  | nil => rfl
  | cons l ls ih =>
      cases ls with
      | nil =>
          show containsSub "[cloudflare]".data l.data = false
          rcases h l (by simp) with hb | hnb
          · subst hb; decide
          · exact not_containsSub_of_not_mem _ hnb
      | cons l2 ls2 =>
          have hrest := ih (fun x hx => h x (List.mem_cons_of_mem _ hx))
          show containsSub "[cloudflare]".data
            ((l ++ ("\n" ++ joinLines (l2 :: ls2))).data) = false
          rw [String.data_append, String.data_append]
          rcases h l (by simp) with hb | hnb
          · subst hb
            have hsplit : ("[build]" : String).data
                = '[' :: ('b' :: "uild]".data) := rfl
            rw [hsplit, List.cons_append, List.cons_append,
              containsSub_bracket_b, containsSub_cons_of_ne _ _ (by decide),
              containsSub_append_right _ _ (by decide),
              containsSub_append_right _ _ (by decide)]
            exact hrest
          · rw [containsSub_append_right _ _ hnb,
              containsSub_append_right _ _ (by decide)]
            exact hrest

/-- Appending bracket-free strings yields a bracket-free string. -/
theorem bracket_notMem_append (a b : String)
    (ha : '[' ∉ a.data) (hb : '[' ∉ b.data) : '[' ∉ (a ++ b).data := by
  rw [String.data_append]
  intro hm
  rcases List.mem_append.mp hm with h | h
  · exact ha h
  · exact hb h

/-- An existing path always lets the Byte Accountant succeed. -/
theorem calculateBytes_ok_of_some (p : String)
    (fsys : String → Option FSEntry) (h : (fsys p).isSome = true) :
    ∃ n, calculateBytes p fsys = Except.ok n := by
  rcases hfe : fsys p with _ | e
  · rw [hfe] at h; simp at h
  · cases e <;> simp [calculateBytes, hfe]

/-! ## The claims -/

/-- C2: for an input path that does not exist, the Byte Accountant fails with
the path-not-found error, the run reports exactly that message once as its
failure and nothing else: no report content, no warnings, no output value. -/
theorem claim2_missing_path_fails_run (inputs : ActionInputs)
    (fsys : String → Option FSEntry) (perByte : Nat → Bool → String)
    (nowIso dS dU : String) (outcome : FetchOutcome)
    (h : fsys (inputOr inputs.path ".") = none) :
    calculateBytes (inputOr inputs.path ".") fsys
      = Except.error ("Path not found: " ++ inputOr inputs.path ".")
    ∧ run inputs fsys perByte nowIso dS dU outcome
      = { failure := some ("Path not found: " ++ inputOr inputs.path "."),
          report := none, warnings := [], output := none } := by
  constructor
  · simp [calculateBytes, h]
  · simp [run, calculateBytes, h]

/-- Witness for C2 at a concrete empty filesystem. -/
theorem claim2_missing_path_fails_run_witness :
    ((fun _ : String => (none : Option FSEntry)) (inputOr "dist" ".") = none)
    ∧ run ⟨"dist", "", "", "", "", "", "", ""⟩ (fun _ => none)
        (fun _ _ => "0") "N" "S" "U" (.throws "x")
      = { failure := some "Path not found: dist", report := none,
          warnings := [], output := none } :=
  ⟨rfl,
   (claim2_missing_path_fails_run ⟨"dist", "", "", "", "", "", "", ""⟩
     (fun _ => none) (fun _ _ => "0") "N" "S" "U" (.throws "x") rfl).2⟩

/-- C3: for an existing path, the Byte Accountant returns the file's exact
size for a regular file, and for a directory the sum of the sizes of every
regular file under it at any depth whose relative path has no `.git` or
`node_modules` directory segment; the empty directory yields zero. -/
theorem claim3_measure_correct (path : String)
    (fsys : String → Option FSEntry) :
    (∀ n, fsys path = some (.file n) →
      calculateBytes path fsys = Except.ok n)
    ∧ (∀ es, fsys path = some (.dir es) →
        calculateBytes path fsys
        = Except.ok ((((regularFilesUnder es).filter
            (fun pr => !hasIgnoredDirSegment pr.1)).map Prod.snd).sum))
    ∧ (fsys path = some (.dir []) → calculateBytes path fsys = Except.ok 0) := by
  refine ⟨?_, ?_, ?_⟩
  · intro n h
    simp [calculateBytes, h]
  · intro es h
    simp [calculateBytes, h, globFiles_eq_filter]
  · intro h
    simp [calculateBytes, h, globFiles]

/-- Witness for C3 at a concrete two-level tree with ignored directories. -/
theorem claim3_measure_correct_witness :
    ((fun p : String => if p = "f" then some (FSEntry.file 42) else
        if p = "d" then some (FSEntry.dir
          [("a.txt", .file 100),
           (".git", .dir [("x", .file 7)]),
           ("sub", .dir [("b.txt", .file 250),
                         ("node_modules", .dir [("c", .file 9)])])])
        else none) "f" = some (FSEntry.file 42))
    ∧ calculateBytes "f" (fun p => if p = "f" then some (FSEntry.file 42) else
        if p = "d" then some (FSEntry.dir
          [("a.txt", .file 100),
           (".git", .dir [("x", .file 7)]),
           ("sub", .dir [("b.txt", .file 250),
                         ("node_modules", .dir [("c", .file 9)])])])
        else none) = Except.ok 42
    ∧ calculateBytes "d" (fun p => if p = "f" then some (FSEntry.file 42) else
        if p = "d" then some (FSEntry.dir
          [("a.txt", .file 100),
           (".git", .dir [("x", .file 7)]),
           ("sub", .dir [("b.txt", .file 250),
                         ("node_modules", .dir [("c", .file 9)])])])
        else none) = Except.ok 350 := by
  have hthmF := claim3_measure_correct "f"
    (fun p : String => if p = "f" then some (FSEntry.file 42) else
      if p = "d" then some (FSEntry.dir
        [("a.txt", .file 100),
         (".git", .dir [("x", .file 7)]),
         ("sub", .dir [("b.txt", .file 250),
                       ("node_modules", .dir [("c", .file 9)])])])
      else none)
  have hthmD := claim3_measure_correct "d"
    (fun p : String => if p = "f" then some (FSEntry.file 42) else
      if p = "d" then some (FSEntry.dir
        [("a.txt", .file 100),
         (".git", .dir [("x", .file 7)]),
         ("sub", .dir [("b.txt", .file 250),
                       ("node_modules", .dir [("c", .file 9)])])])
      else none)
  refine ⟨rfl, hthmF.1 42 rfl, ?_⟩
  refine (hthmD.2.1
    [("a.txt", .file 100),
     (".git", .dir [("x", .file 7)]),
     ("sub", .dir [("b.txt", .file 250),
                   ("node_modules", .dir [("c", .file 9)])])] rfl).trans ?_
  exact congrArg Except.ok (by simp only [regularFilesUnder]; decide)

/-- C10: an existing path that is neither a regular file nor a directory does
not make the Byte Accountant fail: it returns 0. -/
theorem claim10_other_node_returns_zero (path : String)
    (fsys : String → Option FSEntry) (h : fsys path = some .other) :
    calculateBytes path fsys = Except.ok 0 := by
  simp [calculateBytes, h]

/-- Witness for C10 at a concrete non-file non-directory node. -/
theorem claim10_other_node_returns_zero_witness :
    ((fun _ : String => some FSEntry.other) "fifo" = some FSEntry.other)
    ∧ calculateBytes "fifo" (fun _ => some FSEntry.other) = Except.ok 0 :=
  ⟨rfl, claim10_other_node_returns_zero "fifo" (fun _ => some .other) rfl⟩

/-- C5: with cloudflare enabled but a missing (falsy) api token or zone id,
the fetcher raises no error: it emits the credential warning, returns no
data, and its returned value coincides with the disabled behavior. -/
theorem claim5_missing_credentials_degrade (config : CloudflareConfig)
    (dS dU : String) (outcome : FetchOutcome)
    (hen : config.enabled = true)
    (hmiss : strTruthy config.apiToken = false
      ∨ strTruthy config.zoneId = false) :
    (fetchCloudflareAnalytics config dS dU outcome).result = none
    ∧ (fetchCloudflareAnalytics config dS dU outcome).warnings = [credWarning]
    ∧ (fetchCloudflareAnalytics { config with enabled := false }
        dS dU outcome).result
      = (fetchCloudflareAnalytics config dS dU outcome).result := by
  rcases hmiss with h | h <;>
    simp [fetchCloudflareAnalytics, hen, h]

/-- Witness for C5 with the token present and the zone id absent. -/
theorem claim5_missing_credentials_degrade_witness :
    (CloudflareConfig.enabled ⟨some "tok", none, none, none, true⟩ = true)
    ∧ (fetchCloudflareAnalytics ⟨some "tok", none, none, none, true⟩
        "S" "U" (.resp true 200 "OK" ⟨none, none⟩)).result = none
    ∧ (fetchCloudflareAnalytics ⟨some "tok", none, none, none, true⟩
        "S" "U" (.resp true 200 "OK" ⟨none, none⟩)).warnings = [credWarning] :=
  ⟨rfl,
   (claim5_missing_credentials_degrade ⟨some "tok", none, none, none, true⟩
     "S" "U" (.resp true 200 "OK" ⟨none, none⟩) rfl (Or.inr rfl)).1,
   (claim5_missing_credentials_degrade ⟨some "tok", none, none, none, true⟩
     "S" "U" (.resp true 200 "OK" ⟨none, none⟩) rfl (Or.inr rfl)).2.1⟩

/-- C9: an empty-string api token or zone id behaves exactly like an absent
one, because presence is decided by truthiness: with cloudflare enabled the
fetcher warns and returns no data. -/
theorem claim9_empty_string_credential (config : CloudflareConfig)
    (dS dU : String) (outcome : FetchOutcome)
    (hen : config.enabled = true)
    (hempty : config.apiToken = some "" ∨ config.zoneId = some "") :
    (fetchCloudflareAnalytics config dS dU outcome).result = none
    ∧ (fetchCloudflareAnalytics config dS dU outcome).warnings
      = [credWarning] := by
  rcases hempty with h | h <;>
    simp [fetchCloudflareAnalytics, hen, h, strTruthy]

/-- Witness for C9 with an empty-string token and a present zone id. -/
theorem claim9_empty_string_credential_witness :
    (CloudflareConfig.apiToken ⟨some "", some "zone", none, none, true⟩
      = some "")
    ∧ (fetchCloudflareAnalytics ⟨some "", some "zone", none, none, true⟩
        "S" "U" (.resp true 200 "OK" ⟨none, none⟩)).result = none
    ∧ (fetchCloudflareAnalytics ⟨some "", some "zone", none, none, true⟩
        "S" "U" (.resp true 200 "OK" ⟨none, none⟩)).warnings = [credWarning] :=
  ⟨rfl,
   (claim9_empty_string_credential ⟨some "", some "zone", none, none, true⟩
     "S" "U" (.resp true 200 "OK" ⟨none, none⟩) rfl (Or.inl rfl)).1,
   (claim9_empty_string_credential ⟨some "", some "zone", none, none, true⟩
     "S" "U" (.resp true 200 "OK" ⟨none, none⟩) rfl (Or.inl rfl)).2⟩

/-- C4: normalization of a successful response is total (the model function
is total by construction, so it never throws).  The first zone's daily-groups
array defaults to the empty list when absent or null at any nesting level;
the returned totals are the sums over all groups of the zero-defaulted
numeric fields; and the daily breakdown keeps, in order, exactly the groups
with a (truthy) date — a group with a missing date is dropped from the
breakdown while its numeric fields still fold into the totals through the
same sums. -/
theorem claim4_normalization_total_and_defaults (config : CloudflareConfig)
    (dS dU : String) (status : Nat) (stext : String) (body : ApiBody)
    (hen : config.enabled = true)
    (htok : strTruthy config.apiToken = true)
    (hzone : strTruthy config.zoneId = true)
    (herr : (body.errors.getD []).isEmpty = true) :
    (fetchCloudflareAnalytics config dS dU
        (.resp true status stext body)).result
      = some { zone_id := config.zoneId.getD ""
               time_range :=
                 { since := (strOrElse config.since dS).take 10,
                   «until» := (strOrElse config.until dU).take 10 }
               totals :=
                 { requests := ((extractGroups body).map groupRequests).sum,
                   bytes := ((extractGroups body).map groupBytes).sum }
               daily := (extractGroups body).filterMap dailyOfGroup }
    ∧ (body.data = none → extractGroups body = [])
    ∧ (∀ bd, body.data = some bd → bd.viewer = none →
        extractGroups body = [])
    ∧ (∀ bd v, body.data = some bd → bd.viewer = some v → v.zones = none →
        extractGroups body = [])
    ∧ (∀ bd v, body.data = some bd → bd.viewer = some v →
        v.zones = some [] → extractGroups body = [])
    ∧ (∀ bd v zs, body.data = some bd → bd.viewer = some v →
        v.zones = some (none :: zs) → extractGroups body = [])
    ∧ (∀ bd v z zs, body.data = some bd → bd.viewer = some v →
        v.zones = some (some z :: zs) → z.httpRequests1dGroups = none →
        extractGroups body = []) := by
  refine ⟨?_, ?_, ?_, ?_, ?_, ?_, ?_⟩
  · simp [fetchCloudflareAnalytics, hen, htok, hzone, herr,
      processGroups_spec]
  · intro h; simp [extractGroups, h]
  · intro bd h1 h2; simp [extractGroups, h1, h2]
  · intro bd v h1 h2 h3; simp [extractGroups, h1, h2, h3]
  · intro bd v h1 h2 h3; simp [extractGroups, h1, h2, h3]
  · intro bd v zs h1 h2 h3; simp [extractGroups, h1, h2, h3]
  · intro bd v z zs h1 h2 h3 h4; simp [extractGroups, h1, h2, h3, h4]

/-- Witness for C4: a response with one dated group, one undated group and
one null group; the undated group's numbers fold into the totals but produce
no daily row. -/
theorem claim4_normalization_total_and_defaults_witness :
    ((ApiBody.errors ⟨some [], some ⟨some ⟨some [some ⟨some
        [some ⟨some ⟨some "2024-01-01"⟩, some ⟨some 10, some 1000⟩⟩,
         some ⟨none, some ⟨some 5, some 500⟩⟩,
         none]⟩]⟩⟩⟩).getD []).isEmpty = true
    ∧ (fetchCloudflareAnalytics ⟨some "tok", some "zone", some "2024-01-01", some "2024-01-31", true⟩
        "S" "U"
        (.resp true 200 "OK" ⟨some [], some ⟨some ⟨some [some ⟨some
          [some ⟨some ⟨some "2024-01-01"⟩, some ⟨some 10, some 1000⟩⟩,
           some ⟨none, some ⟨some 5, some 500⟩⟩,
           none]⟩]⟩⟩⟩)).result
      = some { zone_id := "zone"
               time_range := { since := "2024-01-01", «until» := "2024-01-31" }
               totals := { requests := 15, bytes := 1500 }
               daily := [⟨"2024-01-01", 10, 1000⟩] } :=
  ⟨rfl,
   (claim4_normalization_total_and_defaults
     ⟨some "tok", some "zone", some "2024-01-01", some "2024-01-31", true⟩
     "S" "U" 200 "OK"
     ⟨some [], some ⟨some ⟨some [some ⟨some
       [some ⟨some ⟨some "2024-01-01"⟩, some ⟨some 10, some 1000⟩⟩,
        some ⟨none, some ⟨some 5, some 500⟩⟩,
        none]⟩]⟩⟩⟩ rfl rfl rfl rfl).1⟩

/-- C1: with analytics enabled and both credentials present, every failing
transport outcome — an exception, a non-success HTTP status, or a non-empty
API error list — makes the fetcher emit a warning and return no data instead
of propagating an error; and a run over an existing path still proceeds under
any such outcome: it records no failure and writes a report. -/
theorem claim1_fetch_failure_is_soft (config : CloudflareConfig)
    (dS dU : String) (outcome : FetchOutcome) (inputs : ActionInputs)
    (fsys : String → Option FSEntry) (perByte : Nat → Bool → String)
    (nowIso : String)
    (hen : config.enabled = true)
    (htok : strTruthy config.apiToken = true)
    (hzone : strTruthy config.zoneId = true)
    (hfail : outcome.failing = true)
    (hpath : (fsys (inputOr inputs.path ".")).isSome = true) :
    (fetchCloudflareAnalytics config dS dU outcome).result = none
    ∧ (fetchCloudflareAnalytics config dS dU outcome).warnings ≠ []
    ∧ (run inputs fsys perByte nowIso dS dU outcome).failure = none
    ∧ ((run inputs fsys perByte nowIso dS dU outcome).report).isSome
      = true := by
  have hfetch : (fetchCloudflareAnalytics config dS dU outcome).result = none
      ∧ (fetchCloudflareAnalytics config dS dU outcome).warnings ≠ [] := by
    cases outcome with
    | throws msg =>
        simp [fetchCloudflareAnalytics, hen, htok, hzone]
    | resp ok status stext body =>
        cases ok with
        | false => simp [fetchCloudflareAnalytics, hen, htok, hzone]
        | true =>
            have herr : (body.errors.getD []).isEmpty = false := by
              simpa [FetchOutcome.failing] using hfail
            simp [fetchCloudflareAnalytics, hen, htok, hzone, herr]
  obtain ⟨n, hn⟩ := calculateBytes_ok_of_some _ fsys hpath
  refine ⟨hfetch.1, hfetch.2, ?_, ?_⟩
  · simp [run, hn]
  · simp [run, hn]

/-- Witness for C1 at a response carrying a non-empty error list over a
one-file filesystem. -/
theorem claim1_fetch_failure_is_soft_witness :
    (FetchOutcome.failing
        (.resp true 200 "OK" ⟨some ["err"], none⟩) = true)
    ∧ (fetchCloudflareAnalytics ⟨some "tok", some "zone", none, none, true⟩
        "S" "U" (.resp true 200 "OK" ⟨some ["err"], none⟩)).result = none
    ∧ (fetchCloudflareAnalytics ⟨some "tok", some "zone", none, none, true⟩
        "S" "U" (.resp true 200 "OK" ⟨some ["err"], none⟩)).warnings ≠ []
    ∧ (run ⟨"", "", "", "true", "tok", "zone", "", ""⟩
        (fun _ => some (.file 3)) (fun _ _ => "0") "N" "S" "U"
        (.resp true 200 "OK" ⟨some ["err"], none⟩)).failure = none
    ∧ ((run ⟨"", "", "", "true", "tok", "zone", "", ""⟩
        (fun _ => some (.file 3)) (fun _ _ => "0") "N" "S" "U"
        (.resp true 200 "OK" ⟨some ["err"], none⟩)).report).isSome = true := by
  have h := claim1_fetch_failure_is_soft
    ⟨some "tok", some "zone", none, none, true⟩ "S" "U"
    (.resp true 200 "OK" ⟨some ["err"], none⟩)
    ⟨"", "", "", "true", "tok", "zone", "", ""⟩
    (fun _ => some (.file 3)) (fun _ _ => "0") "N" rfl rfl rfl rfl rfl
  exact ⟨rfl, h.1, h.2.1, h.2.2.1, h.2.2.2⟩

/-- C6: with analytics present, the composed report's line list decomposes as
a block-free prefix followed by one `[[cloudflare.daily]]` block per daily
entry, in the order of the input sequence and each carrying that entry's
date, requests and bytes (the shape of `dailyBlock`); hence the number of
`[[cloudflare.daily]]` marker lines is exactly the number of daily
entries. -/
theorem claim6_daily_blocks_in_order (p : BuildParams)
    (a : CloudflareAnalyticsResult) (h : p.cloudflareAnalytics = some a) :
    markerCount (buildCarbonTxtLines p) = a.daily.length
    ∧ buildCarbonTxtLines p
      = (reportHeader p ++ cloudflareHeader p a)
        ++ a.daily.flatMap (dailyBlock p)
    ∧ markerCount (reportHeader p ++ cloudflareHeader p a) = 0 := by
  have hl : buildCarbonTxtLines p
      = reportHeader p ++ (cloudflareHeader p a
        ++ a.daily.flatMap (dailyBlock p)) := by
    rw [buildCarbonTxtLines, h]
  refine ⟨?_, ?_, ?_⟩
  · rw [hl, markerCount_append, markerCount_append,
      markerCount_reportHeader, markerCount_cloudflareHeader,
      markerCount_flatMap]
    omega
  · rw [hl, List.append_assoc]
  · rw [markerCount_append, markerCount_reportHeader,
      markerCount_cloudflareHeader]

/-- Witness for C6 with two daily entries. -/
theorem claim6_daily_blocks_in_order_witness :
    (BuildParams.cloudflareAnalytics
        { bytes := 350, greenHosting := false, estimatedCO2 := "0.1",
          cloudflareAnalytics := some ⟨"z", ⟨"2024-01-01", "2024-01-31"⟩,
            ⟨15, 1500⟩, [⟨"2024-01-01", 10, 1000⟩, ⟨"2024-01-02", 5, 500⟩]⟩,
          perByte := fun _ _ => "0", nowIso := "N" }
      = some ⟨"z", ⟨"2024-01-01", "2024-01-31"⟩, ⟨15, 1500⟩,
          [⟨"2024-01-01", 10, 1000⟩, ⟨"2024-01-02", 5, 500⟩]⟩)
    ∧ markerCount (buildCarbonTxtLines
        { bytes := 350, greenHosting := false, estimatedCO2 := "0.1",
          cloudflareAnalytics := some ⟨"z", ⟨"2024-01-01", "2024-01-31"⟩,
            ⟨15, 1500⟩, [⟨"2024-01-01", 10, 1000⟩, ⟨"2024-01-02", 5, 500⟩]⟩,
          perByte := fun _ _ => "0", nowIso := "N" }) = 2 :=
  ⟨rfl,
   (claim6_daily_blocks_in_order
     { bytes := 350, greenHosting := false, estimatedCO2 := "0.1",
       cloudflareAnalytics := some ⟨"z", ⟨"2024-01-01", "2024-01-31"⟩,
         ⟨15, 1500⟩, [⟨"2024-01-01", 10, 1000⟩, ⟨"2024-01-02", 5, 500⟩]⟩,
       perByte := fun _ _ => "0", nowIso := "N" }
     ⟨"z", ⟨"2024-01-01", "2024-01-31"⟩, ⟨15, 1500⟩,
       [⟨"2024-01-01", 10, 1000⟩, ⟨"2024-01-02", 5, 500⟩]⟩ rfl).1⟩

/-- C7: with analytics absent the composed report text never contains the
substring `[cloudflare]` — the analytics section and every per-day block are
omitted entirely.  The two hypotheses record that the out-of-scope renderings
(the ISO timestamp and the CO2.js number) contain no opening bracket, which
holds of every ISO-8601 timestamp and every JavaScript number rendering. -/
theorem claim7_no_cloudflare_without_analytics (p : BuildParams)
    (hcf : p.cloudflareAnalytics = none)
    (hnow : '[' ∉ p.nowIso.data)
    (hest : '[' ∉ p.estimatedCO2.data) :
    occursIn "[cloudflare]" (buildCarbonTxt p) = false := by
  rw [occursIn, buildCarbonTxt]
  apply joinLines_no_cloudflare
  intro l hl
  simp only [buildCarbonTxtLines, hcf] at hl
  simp only [reportHeader, List.mem_cons, List.not_mem_nil, or_false] at hl
  rcases hl with h | h | h | h | h | h | h | h | h
  · subst h; right; decide
  · subst h; right; decide
  · subst h; right
    exact bracket_notMem_append _ _ (by decide)
      (bracket_notMem_append _ _ hnow (by decide))
  · subst h; right; decide
  · subst h; left; rfl
  · subst h; right
    exact bracket_notMem_append _ _ (by decide)
      (bracket_notMem_append _ _ hnow (by decide))
  · subst h; right
    exact bracket_notMem_append _ _ (by decide) (repr_ne_bracket _)
  · subst h; right
    exact bracket_notMem_append _ _ (by decide) (boolStr_ne_bracket _)
  · subst h; right
    exact bracket_notMem_append _ _ (by decide) hest

/-- Witness for C7 at a concrete disabled-analytics report. -/
theorem claim7_no_cloudflare_without_analytics_witness :
    (BuildParams.cloudflareAnalytics
        { bytes := 350, greenHosting := false, estimatedCO2 := "0.000124951",
          cloudflareAnalytics := none, perByte := fun _ _ => "0",
          nowIso := "2024-05-01T12:00:00.000Z" } = none)
    ∧ '[' ∉ ("2024-05-01T12:00:00.000Z" : String).data
    ∧ '[' ∉ ("0.000124951" : String).data
    ∧ occursIn "[cloudflare]" (buildCarbonTxt
        { bytes := 350, greenHosting := false, estimatedCO2 := "0.000124951",
          cloudflareAnalytics := none, perByte := fun _ _ => "0",
          nowIso := "2024-05-01T12:00:00.000Z" }) = false :=
  ⟨rfl, by decide, by decide,
   claim7_no_cloudflare_without_analytics
     { bytes := 350, greenHosting := false, estimatedCO2 := "0.000124951",
       cloudflareAnalytics := none, perByte := fun _ _ => "0",
       nowIso := "2024-05-01T12:00:00.000Z" } rfl (by decide) (by decide)⟩

/-- C8: the `last_updated` line at the top and the `date` line of the
`[build]` section of every composed report carry the same timestamp string —
the one wall-clock value captured once at the start of composition. -/
theorem claim8_single_timestamp (p : BuildParams) :
    ∃ t : String,
      (buildCarbonTxtLines p)[2]?
        = some ("last_updated = \"" ++ (t ++ "\""))
      ∧ (buildCarbonTxtLines p)[5]? = some ("date = \"" ++ (t ++ "\"")) := by
  refine ⟨p.nowIso, ?_, ?_⟩ <;>
    cases hcf : p.cloudflareAnalytics <;>
      simp [buildCarbonTxtLines, hcf, reportHeader]

end CO2Injector
